import Mathlib

/-!
Shallow embedding of the job-board recommendation engine
(src/job_board/recommendations.py) together with the data it reads from
src/job_board/models.py, and proofs of the specified properties.

Numeric scores are modelled as exact rationals; Python rounding
(round to 2 decimal places, round-half-to-even) is modelled explicitly.
Python strings are modelled as Lean strings, with lowercase mapping and
contiguous-substring containment made explicit.
-/

namespace JobBoard

/-- Python str.lower applied characterwise. -/
def pyLower (s : String) : String :=
  ⟨s.data.map Char.toLower⟩

/-- Bool test that the second list starts with the first list. -/
def strStarts (needle hay : List Char) : Bool :=
  match needle with
  | [] => true
  | n :: ns =>
    match hay with
    | [] => false
    | h :: hs => h == n && strStarts ns hs

/-- Python substring test needle in hay (contiguous substring). -/
def strContains (hay needle : List Char) : Bool :=
  match hay with
  | [] => needle.isEmpty
  | h :: t => strStarts needle (h :: t) || strContains t needle

/-- The mathematical contiguous-substring relation. -/
def SubstringOf (needle hay : List Char) : Prop :=
  ∃ a b, hay = a ++ needle ++ b

/-- Python int() truncation toward zero on a rational. -/
def pyInt (q : ℚ) : ℤ :=
  if q < 0 then -⌊-q⌋ else ⌊q⌋

/-- Round-half-to-even to the nearest integer, as Python round does. -/
def roundHalfEven (q : ℚ) : ℤ :=
  if q - ⌊q⌋ = 1/2 then (if 2 ∣ ⌊q⌋ then ⌊q⌋ else ⌊q⌋ + 1) else round q

/-- Python round(x, 2): round to 2 decimal places, ties to even. -/
def round2 (q : ℚ) : ℚ :=
  (roundHalfEven (100 * q) : ℚ) / 100

/-- Python slice l[:n], including the negative-index semantics:
for n < 0 the slice is everything except the last |n| elements. -/
def pySlice {α : Type} (l : List α) (n : Int) : List α :=
  if 0 ≤ n then l.take n.toNat else l.take (l.length - (-n).toNat)

/-- The candidate-scoring view of FreelancerProfile (models.py):
declared skill names (via UserSkill.skill.name), preferred locations,
preferred project types, and the remote-acceptance flag. -/
structure FreelancerProfile where
  skills : List String
  preferred_locations : List String
  preferred_project_types : List String
  is_open_to_remote : Bool
deriving DecidableEq, Repr

/-- The candidate-scoring view of Job (models.py): identity, location,
remote flag, job type, publication status and required skill names
(via JobSkill.skill.name). -/
structure Job where
  id : Nat
  location : String
  is_remote : Bool
  job_type : String
  status : String
  required_skills : List String
deriving DecidableEq, Repr

/-- A user: identity, optional freelancer profile, and the ids of jobs
the user has applied to (via Application.job_id). -/
structure User where
  id : Nat
  freelancer_profile : Option FreelancerProfile
  applications : List Nat
deriving DecidableEq, Repr

/-- A JobRecommendation record as created by the engine (models.py). -/
structure JobRecommendation where
  user : Nat
  job : Nat
  score : ℚ
  algorithm_type : String
  reason : String
deriving DecidableEq, Repr

/-- The store state the engine reads and mutates: the jobs table and the
job_recommendations table. -/
structure DB where
  jobs : List Job
  recs : List JobRecommendation
deriving DecidableEq, Repr

/-- RecommendationEngine.weights: skills weight. -/
def weights_skills : ℚ := 6/10

/-- RecommendationEngine.weights: location weight. -/
def weights_location : ℚ := 2/10

/-- RecommendationEngine.weights: job_type weight. -/
def weights_job_type : ℚ := 2/10

/-- RecommendationEngine._calculate_skills_score: set of required skill
names; 1.0 when empty, else 0.0 when the user skill set is empty, else
the exact-string-equality intersection fraction. -/
def calculate_skills_score (profile : FreelancerProfile) (job : Job) : ℚ :=
  let job_skills := job.required_skills.dedup
  if job_skills.isEmpty then 1
  else
    let user_skills := profile.skills.dedup
    if user_skills.isEmpty then 0
    else
      let matching_skills := user_skills.filter (fun s => job_skills.contains s)
      (matching_skills.length : ℚ) / (job_skills.length : ℚ)

/-- The one-location test in _calculate_location_score: loc.lower() in
job_loc or job_loc in loc.lower(), where job_loc is already lowercased. -/
def locMatch (job_loc : String) (loc : String) : Bool :=
  strContains job_loc.data (pyLower loc).data || strContains (pyLower loc).data job_loc.data

/-- RecommendationEngine._calculate_location_score. -/
def calculate_location_score (profile : FreelancerProfile) (job : Job) : ℚ :=
  if profile.preferred_locations.isEmpty then 1/2
  else
    let job_loc := pyLower job.location
    if profile.preferred_locations.any (fun loc => locMatch job_loc loc) then 1
    else if job.is_remote && profile.is_open_to_remote then 1
    else 0

/-- RecommendationEngine._calculate_type_score. -/
def calculate_type_score (profile : FreelancerProfile) (job : Job) : ℚ :=
  if profile.preferred_project_types.isEmpty then 1/2
  else if profile.preferred_project_types.contains job.job_type then 1
  else 0

/-- RecommendationEngine.calculate_score: weighted sum of the three
sub-scores, rounded to 2 decimal places. -/
def calculate_score (profile : FreelancerProfile) (job : Job) : ℚ :=
  round2 (calculate_skills_score profile job * weights_skills
    + calculate_location_score profile job * weights_location
    + calculate_type_score profile job * weights_job_type)

/-- The reason string built in generate_recommendations, with the
int(score*100) truncation. -/
def recReason (score : ℚ) : String :=
  "Matched based on skills and preferences (Score: " ++ toString (pyInt (score * 100)) ++ "%)"

/-- The scoring loop of generate_recommendations: one candidate record
per job whose score clears the strict 0.1 threshold. -/
def buildRecommendations (user : User) (profile : FreelancerProfile)
    (jobs : List Job) : List JobRecommendation :=
  jobs.filterMap (fun job =>
    let score := calculate_score profile job
    if (1 : ℚ)/10 < score then
      some { user := user.id, job := job.id, score := score,
             algorithm_type := "content_based", reason := recReason score }
    else none)

/-- The survivors of JobRecommendation.objects.filter(user=user,
algorithm_type=content_based).delete(): records not matching the filter. -/
def clearContentBased (recs : List JobRecommendation) (uid : Nat) : List JobRecommendation :=
  recs.filter (fun r => !(r.user == uid && r.algorithm_type == "content_based"))

/-- First store mutation of generate_recommendations: the delete call. -/
def deletePhase (db : DB) (uid : Nat) : DB :=
  { db with recs := clearContentBased db.recs uid }

/-- Second store mutation of generate_recommendations: bulk_create. -/
def insertPhase (db : DB) (batch : List JobRecommendation) : DB :=
  { db with recs := db.recs ++ batch }

/-- generate_recommendations after the profile has been resolved:
select candidate jobs, score them, sort by score descending (stable, as
list.sort with reverse=True), truncate with the Python slice, then delete
the old content-based batch and insert the new one. -/
def generateWithProfile (db : DB) (user : User) (profile : FreelancerProfile)
    (limit : Int) : DB × List JobRecommendation :=
  let candidate_jobs := db.jobs.filter
    (fun j => j.status == "published" && !(user.applications.contains j.id))
  let recommendations := buildRecommendations user profile candidate_jobs
  let sorted := List.insertionSort (fun a b => b.score ≤ a.score) recommendations
  let top_recs := pySlice sorted limit
  (insertPhase (deletePhase db user.id) top_recs, top_recs)

/-- RecommendationEngine.generate_recommendations: returns the stored
batch, or the empty list (with no store access) when the user has no
freelancer profile. -/
def generate_recommendations (db : DB) (user : User) (limit : Int) :
    DB × List JobRecommendation :=
  match user.freelancer_profile with
  | none => (db, [])
  | some profile => generateWithProfile db user profile limit

/-! String lemmas: the recursive scanners agree with the mathematical
substring relations. -/

lemma strStarts_iff (needle hay : List Char) :
    strStarts needle hay = true ↔ ∃ b, hay = needle ++ b := by
  induction needle generalizing hay with
  | nil =>
    constructor
    · intro _
      exact ⟨hay, rfl⟩
    · intro _
      rfl
  | cons n ns ih =>
    cases hay with
    | nil =>
      simp [strStarts]
    | cons h hs =>
      simp only [strStarts, Bool.and_eq_true, beq_iff_eq, ih, List.cons_append]
      constructor
      · rintro ⟨rfl, b, rfl⟩
        exact ⟨b, rfl⟩
      · rintro ⟨b, hb⟩
        injection hb with h1 h2
        exact ⟨h1, b, h2⟩

lemma strContains_iff (hay needle : List Char) :
    strContains hay needle = true ↔ SubstringOf needle hay := by
  induction hay with
  | nil =>
    simp only [strContains, List.isEmpty_iff, SubstringOf]
    constructor
    · rintro rfl
      exact ⟨[], [], rfl⟩
    · rintro ⟨a, b, hab⟩
      have h2 := hab.symm
      rw [List.append_eq_nil] at h2
      have h3 := h2.1
      rw [List.append_eq_nil] at h3
      exact h3.2
  | cons c t ih =>
    simp only [strContains, Bool.or_eq_true, ih, strStarts_iff]
    unfold SubstringOf
    constructor
    · rintro (⟨b, hb⟩ | ⟨a, b, hb⟩)
      · exact ⟨[], b, by simpa using hb⟩
      · exact ⟨c :: a, b, by simp [hb]⟩
    · rintro ⟨a, b, hab⟩
      cases a with
      | nil =>
        left
        exact ⟨b, by simpa using hab⟩
      | cons x xs =>
        right
        injection hab with h1 h2
        exact ⟨xs, b, h2⟩

/-! Rounding lemmas. -/

lemma roundHalfEven_bounds {q : ℚ} (h0 : 0 ≤ q) (h1 : q ≤ 100) :
    0 ≤ roundHalfEven q ∧ roundHalfEven q ≤ 100 := by
  unfold roundHalfEven
  have hf0 : 0 ≤ ⌊q⌋ := Int.floor_nonneg.mpr h0
  split_ifs with htie heven
  · refine ⟨hf0, ?_⟩
    have : (⌊q⌋ : ℚ) ≤ 100 := by
      have := Int.floor_le q
      linarith
    exact_mod_cast this
  · have hlt : ⌊q⌋ < 100 := by
      have hq : (⌊q⌋ : ℚ) = q - 1/2 := by linarith
      have : (⌊q⌋ : ℚ) < 100 := by rw [hq]; linarith
      exact_mod_cast this
    constructor <;> omega
  · rw [round_eq]
    constructor
    · exact Int.floor_nonneg.mpr (by linarith)
    · have hmono : ⌊q + 1/2⌋ ≤ ⌊(201 : ℚ)/2⌋ := Int.floor_le_floor (by linarith)
      have h201 : ⌊(201 : ℚ)/2⌋ = 100 := by
        rw [Int.floor_eq_iff]
        norm_num
      omega

lemma round2_bounds {q : ℚ} (h0 : 0 ≤ q) (h1 : q ≤ 1) :
    0 ≤ round2 q ∧ round2 q ≤ 1 := by
  obtain ⟨a, b⟩ := roundHalfEven_bounds (q := 100 * q) (by linarith) (by linarith)
  unfold round2
  constructor
  · apply div_nonneg _ (by norm_num)
    exact_mod_cast a
  · rw [div_le_one (by norm_num)]
    exact_mod_cast b

/-! Sub-score lemmas. -/

lemma skills_score_eq (p : FreelancerProfile) (j : Job)
    (hR : j.required_skills ≠ []) (hU : p.skills ≠ []) :
    calculate_skills_score p j =
      ((j.required_skills.toFinset ∩ p.skills.toFinset).card : ℚ)
        / (j.required_skills.toFinset.card : ℚ) := by
  have hR2 : j.required_skills.dedup.isEmpty = false := by
    simp [List.isEmpty_iff, List.dedup_eq_nil, hR]
  have hU2 : p.skills.dedup.isEmpty = false := by
    simp [List.isEmpty_iff, List.dedup_eq_nil, hU]
  have hnum : (p.skills.dedup.filter
        (fun s => (j.required_skills.dedup).contains s)).length
      = (j.required_skills.toFinset ∩ p.skills.toFinset).card := by
    have hnd : (p.skills.dedup.filter
        (fun s => (j.required_skills.dedup).contains s)).Nodup :=
      (List.nodup_dedup _).filter _
    rw [← List.toFinset_card_of_nodup hnd]
    congr 1
    ext a
    simp [List.mem_dedup]
    tauto
  have hden : j.required_skills.dedup.length = j.required_skills.toFinset.card :=
    (List.card_toFinset _).symm
  simp only [calculate_skills_score, hR2, hU2, Bool.false_eq_true, if_false]
  rw [hnum, hden]

lemma calculate_skills_score_nonneg (p : FreelancerProfile) (j : Job) :
    0 ≤ calculate_skills_score p j := by
  unfold calculate_skills_score
  dsimp only
  split_ifs <;> positivity

lemma calculate_skills_score_le_one (p : FreelancerProfile) (j : Job) :
    calculate_skills_score p j ≤ 1 := by
  by_cases hR : j.required_skills = []
  · simp [calculate_skills_score, hR]
  · by_cases hU : p.skills = []
    · have h0 : calculate_skills_score p j = 0 := by
        simp [calculate_skills_score, hU, List.isEmpty_iff, List.dedup_eq_nil, hR]
      rw [h0]
      norm_num
    · rw [skills_score_eq p j hR hU]
      have hne : j.required_skills.toFinset.Nonempty := by
        simp [List.toFinset_nonempty_iff, hR]
      have hpos : 0 < (j.required_skills.toFinset.card : ℚ) := by
        exact_mod_cast Finset.card_pos.mpr hne
      rw [div_le_one hpos]
      exact_mod_cast Finset.card_le_card Finset.inter_subset_left

lemma calculate_location_score_cases (p : FreelancerProfile) (j : Job) :
    calculate_location_score p j = 0 ∨ calculate_location_score p j = 1/2
      ∨ calculate_location_score p j = 1 := by
  unfold calculate_location_score
  dsimp only
  split_ifs <;> norm_num

lemma calculate_type_score_cases (p : FreelancerProfile) (j : Job) :
    calculate_type_score p j = 0 ∨ calculate_type_score p j = 1/2
      ∨ calculate_type_score p j = 1 := by
  unfold calculate_type_score
  split_ifs <;> norm_num

lemma calculate_location_score_bounds (p : FreelancerProfile) (j : Job) :
    0 ≤ calculate_location_score p j ∧ calculate_location_score p j ≤ 1 := by
  rcases calculate_location_score_cases p j with h | h | h <;> rw [h] <;> norm_num

lemma calculate_type_score_bounds (p : FreelancerProfile) (j : Job) :
    0 ≤ calculate_type_score p j ∧ calculate_type_score p j ≤ 1 := by
  rcases calculate_type_score_cases p j with h | h | h <;> rw [h] <;> norm_num

/-! Lemmas about the generation pipeline. -/

instance : IsTotal JobRecommendation (fun a b => b.score ≤ a.score) :=
  ⟨fun a b => le_total b.score a.score⟩

instance : IsTrans JobRecommendation (fun a b => b.score ≤ a.score) :=
  ⟨fun _ _ _ h1 h2 => le_trans h2 h1⟩

lemma pySlice_sublist {α : Type} (l : List α) (n : Int) :
    (pySlice l n).Sublist l := by
  unfold pySlice
  split <;> exact List.take_sublist _ _

lemma pySlice_length_le {α : Type} (l : List α) {n : Int} (h : 0 ≤ n) :
    ((pySlice l n).length : Int) ≤ n := by
  unfold pySlice
  rw [if_pos h]
  have h1 : (l.take n.toNat).length ≤ n.toNat := by
    rw [List.length_take]
    exact min_le_left _ _
  calc ((l.take n.toNat).length : Int) ≤ (n.toNat : Int) := by exact_mod_cast h1
    _ = n := Int.toNat_of_nonneg h

lemma mem_buildRecommendations {u : User} {p : FreelancerProfile}
    {jobs : List Job} {r : JobRecommendation}
    (h : r ∈ buildRecommendations u p jobs) :
    r.user = u.id ∧ r.algorithm_type = "content_based" ∧ 1/10 < r.score := by
  unfold buildRecommendations at h
  rw [List.mem_filterMap] at h
  obtain ⟨j, hj, hr⟩ := h
  dsimp only at hr
  by_cases hs : (1 : ℚ)/10 < calculate_score p j
  · rw [if_pos hs] at hr
    injection hr with hr
    subst hr
    exact ⟨rfl, rfl, hs⟩
  · rw [if_neg hs] at hr
    cases hr

lemma memWithProfile {db : DB} {u : User} {p : FreelancerProfile} {limit : Int}
    {r : JobRecommendation} (h : r ∈ (generateWithProfile db u p limit).2) :
    r.user = u.id ∧ r.algorithm_type = "content_based" ∧ 1/10 < r.score := by
  unfold generateWithProfile at h
  dsimp only at h
  have h2 := List.Sublist.mem h (pySlice_sublist _ _)
  have h3 := (List.perm_insertionSort _ _).mem_iff.mp h2
  exact mem_buildRecommendations h3

lemma generateWithProfile_recs (db : DB) (u : User) (p : FreelancerProfile)
    (limit : Int) :
    (generateWithProfile db u p limit).1.recs
      = clearContentBased db.recs u.id ++ (generateWithProfile db u p limit).2 := rfl

lemma generate_frame (db : DB) (u : User) (limit : Int) (p : FreelancerProfile)
    (h : u.freelancer_profile = some p) :
    (generate_recommendations db u limit).1.recs.filter
        (fun r => !(r.user == u.id && r.algorithm_type == "content_based"))
      = db.recs.filter
        (fun r => !(r.user == u.id && r.algorithm_type == "content_based")) := by
  simp only [generate_recommendations, h]
  rw [generateWithProfile_recs, List.filter_append]
  have h1 : List.filter
      (fun r => !(r.user == u.id && r.algorithm_type == "content_based"))
      (clearContentBased db.recs u.id)
      = clearContentBased db.recs u.id := by
    unfold clearContentBased
    rw [List.filter_filter]
    simp only [Bool.and_self]
  have h2 : List.filter
      (fun r => !(r.user == u.id && r.algorithm_type == "content_based"))
      (generateWithProfile db u p limit).2 = [] := by
    rw [List.filter_eq_nil_iff]
    intro a ha
    obtain ⟨e1, e2, _⟩ := memWithProfile ha
    simp [e1, e2]
  rw [h1, h2, List.append_nil]
  unfold clearContentBased
  rfl

lemma generate_persisted (db : DB) (u : User) (limit : Int) (p : FreelancerProfile)
    (h : u.freelancer_profile = some p) :
    (generate_recommendations db u limit).1.recs.filter
        (fun r => r.user == u.id && r.algorithm_type == "content_based")
      = (generate_recommendations db u limit).2 := by
  simp only [generate_recommendations, h]
  rw [generateWithProfile_recs, List.filter_append]
  have h1 : List.filter
      (fun r => r.user == u.id && r.algorithm_type == "content_based")
      (clearContentBased db.recs u.id) = [] := by
    unfold clearContentBased
    rw [List.filter_filter]
    rw [List.filter_eq_nil_iff]
    intro a _
    cases hc : (a.user == u.id && a.algorithm_type == "content_based") <;> simp [hc]
  have h2 : List.filter
      (fun r => r.user == u.id && r.algorithm_type == "content_based")
      (generateWithProfile db u p limit).2
      = (generateWithProfile db u p limit).2 := by
    rw [List.filter_eq_self]
    intro a ha
    obtain ⟨e1, e2, _⟩ := memWithProfile ha
    simp [e1, e2]
  rw [h1, h2, List.nil_append]

lemma mem_generate {db : DB} {u : User} {limit : Int} {r : JobRecommendation}
    (h : r ∈ (generate_recommendations db u limit).2) :
    r.user = u.id ∧ r.algorithm_type = "content_based" ∧ 1/10 < r.score := by
  cases hp : u.freelancer_profile with
  | none =>
    rw [generate_recommendations, hp] at h
    cases h
  | some p =>
    rw [generate_recommendations, hp] at h
    exact memWithProfile h

lemma mem_generate_state {db : DB} {u : User} {limit : Int} {r : JobRecommendation}
    (h : r ∈ (generate_recommendations db u limit).1.recs) :
    r ∈ db.recs ∨ 1/10 < r.score := by
  cases hp : u.freelancer_profile with
  | none =>
    rw [generate_recommendations, hp] at h
    exact Or.inl h
  | some p =>
    rw [generate_recommendations, hp] at h
    rw [generateWithProfile_recs, List.mem_append] at h
    cases h with
    | inl h1 =>
      exact Or.inl (List.mem_of_mem_filter h1)
    | inr h2 =>
      exact Or.inr (memWithProfile h2).2.2

/-! Concrete inputs used by the counterexamples and witnesses. -/

/-- A published full-time job in Lagos requiring Python. -/
def jobPython : Job := ⟨4, "Lagos", false, "full_time", "published", ["Python"]⟩

/-- A published full-time job in Abuja requiring Go. -/
def jobGo : Job := ⟨5, "Abuja", false, "full_time", "published", ["Go"]⟩

/-- A candidate with no declared skills and no preferences: every job with
required skills scores 0.6·0 + 0.2·0.5 + 0.2·0.5 = 0.20 for them. -/
def profileNoSkills : FreelancerProfile := ⟨[], [], [], true⟩

/-- A candidate with no skills, no location preference, and a job-type
preference that never matches full_time: such jobs score exactly 0.10. -/
def profileContractOnly : FreelancerProfile := ⟨[], [], ["contract"], true⟩

/-- User 7 holding profileNoSkills. -/
def userNoSkills : User := ⟨7, some profileNoSkills, []⟩

/-- User 7 holding profileContractOnly. -/
def userContractOnly : User := ⟨7, some profileContractOnly, []⟩

/-- A store holding only jobPython and no recommendations. -/
def dbOneJob : DB := ⟨[jobPython], []⟩

/-- A store holding jobPython and jobGo and no recommendations. -/
def dbTwoJobs : DB := ⟨[jobPython, jobGo], []⟩

/-- The recommendation the engine builds for userNoSkills and jobPython. -/
def recPython02 : JobRecommendation := ⟨7, 4, 1/5, "content_based", recReason (1/5)⟩

/-- A candidate declaring the skill in lowercase. -/
def profileLowerPython : FreelancerProfile := ⟨["python"], [], [], true⟩

/-- A candidate declaring Python and Go. -/
def profileTwoSkills : FreelancerProfile := ⟨["Python", "Go"], [], [], true⟩

/-- A job requiring Python and SQL. -/
def jobTwoSkills : Job := ⟨6, "Lagos", false, "full_time", "published", ["Python", "SQL"]⟩

/-- A candidate whose only preference is the location San Francisco. -/
def profileSF : FreelancerProfile := ⟨[], ["San Francisco"], [], false⟩

/-- A published job whose location string contains san francisco. -/
def jobSF : Job := ⟨2, "san francisco, ca", false, "full_time", "published", []⟩

/-- A stale content-based recommendation of user 7. -/
def staleRec : JobRecommendation := ⟨7, 99, 1/2, "content_based", "old"⟩

/-- A store with one scoring job and user 7 holding a stale content-based
recommendation. -/
def dbWithStale : DB := ⟨[jobPython], [staleRec]⟩

/-- A user with no freelancer profile. -/
def userNoProfile : User := ⟨3, none, []⟩

/-- A store holding a recommendation of another algorithm for user 3. -/
def dbOther : DB := ⟨[], [⟨3, 1, 1/2, "trending", "t"⟩]⟩

/-- A store with recommendations of another user, of another algorithm tag,
and a stale content-based one of user 7. -/
def dbMixed : DB := ⟨[jobPython],
  [⟨8, 4, 1/2, "content_based", "other user"⟩,
   ⟨7, 4, 1/2, "trending", "same user other tag"⟩,
   ⟨7, 6, 1/2, "content_based", "stale"⟩]⟩

/-- User 9 holding profileNoSkills. -/
def userNine : User := ⟨9, some profileNoSkills, []⟩

/-- A store with no jobs and one stale content-based record of user 9. -/
def dbStaleOnly : DB := ⟨[], [⟨9, 50, 1/2, "content_based", "stale"⟩]⟩

/-- The skills sub-score exactly as claim C1 words it, with skill names
lowercased before comparison, so that membership is case-insensitive.
Written from the claim text for comparison with calculate_skills_score. -/
def skills_score_case_normalized (profile : FreelancerProfile) (job : Job) : ℚ :=
  let job_skills := (job.required_skills.map pyLower).dedup
  if job_skills.isEmpty then 1
  else
    let user_skills := (profile.skills.map pyLower).dedup
    if user_skills.isEmpty then 0
    else
      let matching_skills := user_skills.filter (fun s => job_skills.contains s)
      (matching_skills.length : ℚ) / (job_skills.length : ℚ)

/-- The case-insensitive two-way substring match claim C5 describes, in
its mathematical form: some preferred location is, after lowercasing, a
contiguous substring of the job location or vice versa. -/
def LocMatchProp (p : FreelancerProfile) (j : Job) : Prop :=
  ∃ loc ∈ p.preferred_locations,
    SubstringOf (pyLower loc).data (pyLower j.location).data ∨
    SubstringOf (pyLower j.location).data (pyLower loc).data

lemma any_locMatch_iff (p : FreelancerProfile) (j : Job) :
    p.preferred_locations.any (fun loc => locMatch (pyLower j.location) loc) = true
      ↔ LocMatchProp p j := by
  rw [List.any_eq_true]
  unfold LocMatchProp
  constructor
  · rintro ⟨loc, hmem, hm⟩
    refine ⟨loc, hmem, ?_⟩
    unfold locMatch at hm
    rw [Bool.or_eq_true, strContains_iff, strContains_iff] at hm
    exact hm
  · rintro ⟨loc, hmem, hm⟩
    refine ⟨loc, hmem, ?_⟩
    unfold locMatch
    rw [Bool.or_eq_true, strContains_iff, strContains_iff]
    exact hm

/-! The claims. -/

/-- Claim C1 counterexample: with declared skill python and required skill
Python, the code's sub-score is 0 while the claim's case-normalized
formula gives 1 — the code compares skill names case-sensitively, with no
normalization. -/
theorem c1_case_sensitivity_counterexample :
    calculate_skills_score profileLowerPython jobPython = 0
  ∧ skills_score_case_normalized profileLowerPython jobPython = 1
  ∧ calculate_skills_score profileLowerPython jobPython
      ≠ skills_score_case_normalized profileLowerPython jobPython := by
  with_unfolding_all decide

/-- Claim C1 (amended): the skills sub-score is 1 when the required-skill
set R is empty, else 0 when the declared-skill set U is empty, else
the cardinality ratio of R ∩ U to R, where membership is exact,
case-sensitive string equality. -/
theorem c1_skills_score (p : FreelancerProfile) (j : Job) :
    (j.required_skills = [] → calculate_skills_score p j = 1)
  ∧ (j.required_skills ≠ [] → p.skills = [] → calculate_skills_score p j = 0)
  ∧ (j.required_skills ≠ [] → p.skills ≠ [] →
      calculate_skills_score p j
        = ((j.required_skills.toFinset ∩ p.skills.toFinset).card : ℚ)
          / (j.required_skills.toFinset.card : ℚ)) := by
  refine ⟨?_, ?_, ?_⟩
  · intro h
    simp [calculate_skills_score, h]
  · intro hR hU
    simp [calculate_skills_score, hU, List.isEmpty_iff, List.dedup_eq_nil, hR]
  · intro hR hU
    exact skills_score_eq p j hR hU

/-- Witness for claim C1: two required skills, one matched, sub-score is
the cardinality ratio 1/2. -/
theorem c1_skills_score_witness :
    calculate_skills_score profileTwoSkills jobTwoSkills
      = ((jobTwoSkills.required_skills.toFinset ∩ profileTwoSkills.skills.toFinset).card : ℚ)
        / (jobTwoSkills.required_skills.toFinset.card : ℚ) :=
  (c1_skills_score profileTwoSkills jobTwoSkills).2.2 (by decide) (by decide)

/-- Claim C2: the final score is the 2-decimal rounding of the weighted
sum 0.6·skills + 0.2·location + 0.2·type; each sub-score lies in [0, 1];
the final score lies in [0, 1] and is an integer multiple of 1/100. -/
theorem c2_final_score (p : FreelancerProfile) (j : Job) :
    calculate_score p j
      = round2 (6/10 * calculate_skills_score p j
          + 2/10 * calculate_location_score p j
          + 2/10 * calculate_type_score p j)
  ∧ (0 ≤ calculate_skills_score p j ∧ calculate_skills_score p j ≤ 1)
  ∧ (0 ≤ calculate_location_score p j ∧ calculate_location_score p j ≤ 1)
  ∧ (0 ≤ calculate_type_score p j ∧ calculate_type_score p j ≤ 1)
  ∧ (0 ≤ calculate_score p j ∧ calculate_score p j ≤ 1)
  ∧ ∃ k : ℤ, calculate_score p j = (k : ℚ) / 100 := by
  have hs0 := calculate_skills_score_nonneg p j
  have hs1 := calculate_skills_score_le_one p j
  obtain ⟨hl0, hl1⟩ := calculate_location_score_bounds p j
  obtain ⟨ht0, ht1⟩ := calculate_type_score_bounds p j
  have harg0 : 0 ≤ calculate_skills_score p j * weights_skills
      + calculate_location_score p j * weights_location
      + calculate_type_score p j * weights_job_type := by
    unfold weights_skills weights_location weights_job_type
    linarith
  have harg1 : calculate_skills_score p j * weights_skills
      + calculate_location_score p j * weights_location
      + calculate_type_score p j * weights_job_type ≤ 1 := by
    unfold weights_skills weights_location weights_job_type
    linarith
  refine ⟨?_, ⟨hs0, hs1⟩, ⟨hl0, hl1⟩, ⟨ht0, ht1⟩, ?_, ?_⟩
  · unfold calculate_score weights_skills weights_location weights_job_type
    congr 1
    ring
  · exact round2_bounds harg0 harg1
  · exact ⟨roundHalfEven (100 * (calculate_skills_score p j * weights_skills
      + calculate_location_score p j * weights_location
      + calculate_type_score p j * weights_job_type)), rfl⟩

/-- Claim C3: the code runs the delete and the bulk insert as two separate
store operations with no transaction. Starting from a store holding a
stale content-based record, the state right after the delete phase holds
neither the old record nor the new nonempty batch, so a failure or an
observation between the two phases sees the partially-applied state the
claim rules out. -/
theorem c3_nonatomic_replacement :
    dbWithStale.recs ≠ []
  ∧ (deletePhase dbWithStale userNoSkills.id).recs = []
  ∧ (generate_recommendations dbWithStale userNoSkills 10).2 ≠ []
  ∧ (generate_recommendations dbWithStale userNoSkills 10).1
      = insertPhase (deletePhase dbWithStale userNoSkills.id)
          (generate_recommendations dbWithStale userNoSkills 10).2 := by
  with_unfolding_all decide

/-- Claim C4: every returned record scores strictly above 0.10; every
persisted record is either pre-existing or scores strictly above 0.10;
a job scoring exactly 0.10 is discarded while one scoring 0.20 is
returned. -/
theorem c4_threshold :
    (∀ (db : DB) (u : User) (limit : Int) (r : JobRecommendation),
        r ∈ (generate_recommendations db u limit).2 → 1/10 < r.score)
  ∧ (∀ (db : DB) (u : User) (limit : Int) (r : JobRecommendation),
        r ∈ (generate_recommendations db u limit).1.recs →
          r ∈ db.recs ∨ 1/10 < r.score)
  ∧ calculate_score profileContractOnly jobPython = 1/10
  ∧ (generate_recommendations dbOneJob userContractOnly 10).2 = []
  ∧ calculate_score profileNoSkills jobPython = 1/5
  ∧ recPython02 ∈ (generate_recommendations dbOneJob userNoSkills 10).2 := by
  refine ⟨?_, ?_, ?_, ?_, ?_, ?_⟩
  · intro db u limit r h
    exact (mem_generate h).2.2
  · intro db u limit r h
    exact mem_generate_state h
  · with_unfolding_all decide
  · with_unfolding_all decide
  · with_unfolding_all decide
  · with_unfolding_all decide

/-- Witness for claim C4: the record generated for the 0.20-scoring job is
in the returned batch, and the theorem yields that its score clears the
threshold. -/
theorem c4_threshold_witness : (1 : ℚ)/10 < recPython02.score :=
  c4_threshold.1 dbOneJob userNoSkills 10 recPython02 (by with_unfolding_all decide)

/-- Claim C5: the location sub-score is 0.5 for an empty preference list;
otherwise 1 when some preferred location matches the job location as a
case-insensitive substring in either direction; otherwise 1 when the job
is remote and the candidate accepts remote work; otherwise 0. -/
theorem c5_location_score (p : FreelancerProfile) (j : Job) :
    (p.preferred_locations = [] → calculate_location_score p j = 1/2)
  ∧ (p.preferred_locations ≠ [] →
      (LocMatchProp p j → calculate_location_score p j = 1)
    ∧ (¬ LocMatchProp p j →
        ((j.is_remote = true ∧ p.is_open_to_remote = true) →
            calculate_location_score p j = 1)
      ∧ (¬(j.is_remote = true ∧ p.is_open_to_remote = true) →
            calculate_location_score p j = 0))) := by
  constructor
  · intro h
    simp [calculate_location_score, h]
  · intro hne
    have hne2 : p.preferred_locations.isEmpty = false := by
      simpa [List.isEmpty_iff] using hne
    constructor
    · intro hm
      have hb : p.preferred_locations.any
          (fun loc => locMatch (pyLower j.location) loc) = true :=
        (any_locMatch_iff p j).mpr hm
      simp [calculate_location_score, hne2, hb]
    · intro hnm
      have hb : p.preferred_locations.any
          (fun loc => locMatch (pyLower j.location) loc) = false := by
        cases hc : p.preferred_locations.any
            (fun loc => locMatch (pyLower j.location) loc)
        · rfl
        · exact absurd ((any_locMatch_iff p j).mp hc) hnm
      constructor
      · rintro ⟨h1, h2⟩
        simp [calculate_location_score, hne2, hb, h1, h2]
      · intro hnr
        have hr : (j.is_remote && p.is_open_to_remote) = false := by
          cases hri : j.is_remote
          · simp
          · cases hro : p.is_open_to_remote
            · simp
            · exact absurd ⟨hri, hro⟩ hnr
        simp [calculate_location_score, hne2, hb, hr]

/-- Witness for claim C5: San Francisco matches the job location
san francisco, ca after lowercasing, giving sub-score 1; a candidate with
no location preference gets the neutral 1/2. -/
theorem c5_location_score_witness :
    calculate_location_score profileSF jobSF = 1
  ∧ calculate_location_score profileNoSkills jobPython = 1/2 :=
  ⟨((c5_location_score profileSF jobSF).2 (by decide)).1
      ⟨"San Francisco", by decide,
        Or.inl ⟨[], (", ca").data, by decide⟩⟩,
    (c5_location_score profileNoSkills jobPython).1 rfl⟩

/-- Claim C6: for a nonnegative limit, the returned batch is sorted by
score descending and holds at most limit records. -/
theorem c6_sorted_and_bounded (db : DB) (u : User) (limit : Int)
    (h : 0 ≤ limit) :
    List.Sorted (fun a b => b.score ≤ a.score)
        (generate_recommendations db u limit).2
  ∧ ((generate_recommendations db u limit).2.length : Int) ≤ limit := by
  cases hp : u.freelancer_profile with
  | none =>
    rw [generate_recommendations, hp]
    constructor
    · simp
    · simpa using h
  | some p =>
    rw [generate_recommendations, hp]
    unfold generateWithProfile
    dsimp only
    constructor
    · exact List.Pairwise.sublist (pySlice_sublist _ _)
        (List.sorted_insertionSort _ _)
    · exact pySlice_length_le _ h

/-- Witness for claim C6: with two scoring jobs and limit 1, the batch is
sorted and within the limit. -/
theorem c6_sorted_and_bounded_witness :
    List.Sorted (fun a b : JobRecommendation => b.score ≤ a.score)
        (generate_recommendations dbTwoJobs userNoSkills 1).2
  ∧ ((generate_recommendations dbTwoJobs userNoSkills 1).2.length : Int) ≤ 1 :=
  c6_sorted_and_bounded dbTwoJobs userNoSkills 1 (by decide)

/-- Claim C7 counterexample: limit -1 is ≤ 0, yet with two surviving
recommendations the Python slice recommendations[:-1] returns one record,
not the empty sequence the claim requires. -/
theorem c7_negative_limit_counterexample :
    (-1 : Int) ≤ 0
  ∧ (generate_recommendations dbTwoJobs userNoSkills (-1)).2 ≠ [] := by
  with_unfolding_all decide

/-- Claim C7 (amended): calling generation with limit = 0 returns an empty
sequence; a negative limit instead drops that many records from the end of
the sorted surviving batch. -/
theorem c7_zero_limit_empty (db : DB) (u : User) :
    (generate_recommendations db u 0).2 = [] := by
  cases hp : u.freelancer_profile with
  | none =>
    rw [generate_recommendations, hp]
  | some p =>
    rw [generate_recommendations, hp]
    unfold generateWithProfile
    dsimp only
    unfold pySlice
    rw [if_pos le_rfl]
    simp

/-- Claim C8: a user with no freelancer profile gets an empty batch and
the store is returned unchanged — no delete, no insert. -/
theorem c8_no_profile (db : DB) (u : User) (limit : Int)
    (h : u.freelancer_profile = none) :
    generate_recommendations db u limit = (db, []) := by
  rw [generate_recommendations, h]

/-- Witness for claim C8: applying the theorem to a profileless user over
a store holding another record. -/
theorem c8_no_profile_witness :
    generate_recommendations dbOther userNoProfile 10 = (dbOther, []) :=
  c8_no_profile dbOther userNoProfile 10 rfl

/-- Claim C9: a run removes exactly the target user's content-based
records: all records not matching (user, content_based) pass through
unchanged, and the (user, content_based) part of the final store is
exactly the new batch. -/
theorem c9_delete_scope (db : DB) (u : User) (limit : Int)
    (p : FreelancerProfile) (h : u.freelancer_profile = some p) :
    (generate_recommendations db u limit).1.recs.filter
        (fun r => !(r.user == u.id && r.algorithm_type == "content_based"))
      = db.recs.filter
        (fun r => !(r.user == u.id && r.algorithm_type == "content_based"))
  ∧ (generate_recommendations db u limit).1.recs.filter
        (fun r => r.user == u.id && r.algorithm_type == "content_based")
      = (generate_recommendations db u limit).2 :=
  ⟨generate_frame db u limit p h, generate_persisted db u limit p h⟩

/-- Witness for claim C9 over a store holding another user's record, a
same-user record of another algorithm, and a stale content-based one. -/
theorem c9_delete_scope_witness :
    (generate_recommendations dbMixed userNoSkills 10).1.recs.filter
        (fun r => !(r.user == userNoSkills.id && r.algorithm_type == "content_based"))
      = dbMixed.recs.filter
        (fun r => !(r.user == userNoSkills.id && r.algorithm_type == "content_based"))
  ∧ (generate_recommendations dbMixed userNoSkills 10).1.recs.filter
        (fun r => r.user == userNoSkills.id && r.algorithm_type == "content_based")
      = (generate_recommendations dbMixed userNoSkills 10).2 :=
  c9_delete_scope dbMixed userNoSkills 10 profileNoSkills rfl

/-- Claim C10: after a run for a user with a profile, the persisted
content-based set equals the returned batch; concretely, with no eligible
jobs the run still wipes the stale content-based records, leaving the
persisted content-based set empty. -/
theorem c10_replacement :
    (∀ (db : DB) (u : User) (limit : Int) (p : FreelancerProfile),
        u.freelancer_profile = some p →
        (generate_recommendations db u limit).1.recs.filter
            (fun r => r.user == u.id && r.algorithm_type == "content_based")
          = (generate_recommendations db u limit).2)
  ∧ (generate_recommendations dbStaleOnly userNine 10).2 = []
  ∧ (generate_recommendations dbStaleOnly userNine 10).1.recs.filter
        (fun r => r.user == userNine.id && r.algorithm_type == "content_based") = []
  ∧ dbStaleOnly.recs.filter
        (fun r => r.user == userNine.id && r.algorithm_type == "content_based") ≠ [] := by
  refine ⟨fun db u limit p h => generate_persisted db u limit p h, ?_, ?_, ?_⟩
    <;> with_unfolding_all decide

/-- Witness for claim C10: the persisted content-based set equals the
returned batch on the concrete store. -/
theorem c10_replacement_witness :
    (generate_recommendations dbStaleOnly userNine 10).1.recs.filter
        (fun r => r.user == userNine.id && r.algorithm_type == "content_based")
      = (generate_recommendations dbStaleOnly userNine 10).2 :=
  c10_replacement.1 dbStaleOnly userNine 10 profileNoSkills rfl

end JobBoard
